import Mathlib

/-!
Shallow embedding of `neuralogic/nn/module/general/rnn.py` (PyNeuraLogic):
the `RNNCell` leaf module and the `RNN` composite module, which expand into
ordered sequences of logic-program statements (rules, facts, metadata
directives).  All definitions are translated directly from the Python source.
-/

/-- Activation kinds used by the module compiler (`neuralogic.core.enums.Activation`).
The source file uses `Activation.TANH` (the default) and `Activation.IDENTITY`;
further members of the enumeration are included for generality. -/
inductive Activation where
  | IDENTITY
  | TANH
  | SIGMOID
  | RELU
  | LUKASIEWICZ
deriving DecidableEq, Repr

/-- A logic term: a variable (e.g. `X0`, `Y`, `Z`) or an integer constant
(the time indices `0, 1, ..., num_layers`). -/
inductive Term where
  | var (name : String)
  | const (value : Nat)
deriving DecidableEq, Repr

/-- An atom: a predicate name applied to a list of terms, optionally carrying
a weight-shape annotation `(outDim, inDim)` (the Python `relation[h, w]`
indexing). -/
structure Atom where
  name : String
  terms : List Term
  weight : Option (Nat × Nat)
deriving DecidableEq, Repr

/-- A statement of the produced template: a rule (head, ordered body, rule-level
activation metadata), a fact (bodyless ground atom), or a metadata directive
binding a relation `name/arity` to an activation.  In the source, rule-level
metadata is written `rule | [Activation.X]` and relation metadata is written
`relation / arity | Metadata(activation=...)` or `relation / arity | [Activation.X]`;
both relation forms denote a directive carrying that single activation. -/
inductive Statement where
  | rule (head : Atom) (body : List Atom) (act : Activation)
  | fact (head : Atom)
  | metadata (name : String) (arity : Nat) (act : Activation)
deriving DecidableEq, Repr

/-- The position variables `[f"X{i}" for i in range(arity)]`. -/
def posVars (arity : Nat) : List Term :=
  (List.range arity).map (fun i => Term.var ("X" ++ toString i))

/-- Parameters of `RNNCell.__init__`.  Python defaults:
`activation = Activation.TANH`, `arity = 1`, `input_time_step = True`,
`next_name = "_next__positive"`. -/
structure RNNCell where
  input_size : Nat
  hidden_size : Nat
  output_name : String
  input_name : String
  hidden_input_name : String
  activation : Activation
  arity : Nat
  input_time_step : Bool
  next_name : String
deriving DecidableEq, Repr

/-- `RNNCell` constructed with every optional parameter left at its Python
default. -/
def RNNCell.mkDefault (input_size hidden_size : Nat)
    (output_name input_name hidden_input_name : String) : RNNCell :=
  ⟨input_size, hidden_size, output_name, input_name, hidden_input_name,
   Activation.TANH, 1, true, "_next__positive"⟩

/-- `RNNCell.__call__`: builds the recursive-step rule
`output(X0..X{arity-1}, Y) <= input(...)[h,w], hidden(X.., Z)[h,h], next(Z, Y)`
tagged with identity activation, followed by the metadata directive
`output / (arity + 1) | Metadata(activation=self.activation)`. -/
def RNNCell.call (m : RNNCell) : List Statement :=
  let terms := posVars m.arity
  let input_terms := if m.input_time_step then terms ++ [Term.var "Y"] else terms
  [ Statement.rule
      ⟨m.output_name, terms ++ [Term.var "Y"], none⟩
      [ ⟨m.input_name, input_terms, some (m.hidden_size, m.input_size)⟩,
        ⟨m.hidden_input_name, terms ++ [Term.var "Z"], some (m.hidden_size, m.hidden_size)⟩,
        ⟨m.next_name, [Term.var "Z", Term.var "Y"], none⟩ ]
      Activation.IDENTITY,
    Statement.metadata m.output_name (m.arity + 1) m.activation ]

/-- Parameters of `RNN.__init__`.  Python defaults:
`activation = Activation.TANH`, `arity = 1`, `input_time_step = True`,
`next_name = "_next__positive"`. -/
structure RNN where
  input_size : Nat
  hidden_size : Nat
  num_layers : Nat
  output_name : String
  input_name : String
  hidden_0_name : String
  activation : Activation
  arity : Nat
  input_time_step : Bool
  next_name : String
deriving DecidableEq, Repr

/-- `RNN` constructed with every optional parameter left at its Python
default. -/
def RNN.mkDefault (input_size hidden_size num_layers : Nat)
    (output_name input_name hidden_0_name : String) : RNN :=
  ⟨input_size, hidden_size, num_layers, output_name, input_name, hidden_0_name,
   Activation.TANH, 1, true, "_next__positive"⟩

/-- The compiler-generated intermediate predicate name
`f"{self.output_name}__rnn_cell"`. -/
def RNN.tempOutputName (m : RNN) : String :=
  m.output_name ++ "__rnn_cell"

/-- The leaf cell the composite delegates to: the intermediate name is reused
as both `output_name` and `hidden_input_name`. -/
def RNN.recursiveCell (m : RNN) : RNNCell :=
  ⟨m.input_size, m.hidden_size, m.tempOutputName, m.input_name, m.tempOutputName,
   m.activation, m.arity, m.input_time_step, m.next_name⟩

/-- `RNN.__call__`: `num_layers` successor facts `next(i, i+1)`, the boundary
rule binding the intermediate relation at time `0` to the initial hidden
state, the delegated cell statements, the boundary rule binding the output
relation to the intermediate relation at time `num_layers`, and the output
relation's metadata directive `output / arity | [Activation.IDENTITY]`. -/
def RNN.call (m : RNN) : List Statement :=
  let terms := posVars m.arity
  (List.range m.num_layers).map
      (fun i => Statement.fact ⟨m.next_name, [Term.const i, Term.const (i + 1)], none⟩)
  ++ [ Statement.rule
         ⟨m.tempOutputName, terms ++ [Term.const 0], none⟩
         [⟨m.hidden_0_name, terms, none⟩]
         Activation.IDENTITY ]
  ++ m.recursiveCell.call
  ++ [ Statement.rule
         ⟨m.output_name, terms, none⟩
         [⟨m.tempOutputName, terms ++ [Term.const m.num_layers], none⟩]
         Activation.IDENTITY,
       Statement.metadata m.output_name m.arity Activation.IDENTITY ]

/-- The variable names occurring in an atom's term list. -/
def Atom.varNames (a : Atom) : List String :=
  a.terms.filterMap (fun t => match t with
    | Term.var s => some s
    | Term.const _ => none)

/-- The variable names occurring anywhere in a rule body. -/
def bodyVarNames (body : List Atom) : List String :=
  (body.map Atom.varNames).flatten

/-- Rule safety (range restriction): every variable of the head occurs in
some body atom.  Facts and metadata directives are vacuously safe. -/
def Statement.safe : Statement → Prop
  | Statement.rule head body _ => ∀ v ∈ head.varNames, v ∈ bodyVarNames body
  | Statement.fact _ => True
  | Statement.metadata _ _ _ => True

instance : DecidablePred Statement.safe := fun s => by
  cases s with
  | rule head body a => exact List.decidableBAll _ _
  | fact h => exact inferInstanceAs (Decidable True)
  | metadata n k a => exact inferInstanceAs (Decidable True)

/-- Whether a statement is a fact. -/
def Statement.isFact : Statement → Bool
  | Statement.fact _ => true
  | _ => false

/-- Whether a statement is a rule. -/
def Statement.isRule : Statement → Bool
  | Statement.rule _ _ _ => true
  | _ => false

/-- Whether a statement is a metadata directive. -/
def Statement.isMetadata : Statement → Bool
  | Statement.metadata _ _ _ => true
  | _ => false

/-- The predicate names mentioned anywhere in a statement (head, body atoms,
or metadata target). -/
def Statement.predNames : Statement → List String
  | Statement.rule head body _ => head.name :: body.map Atom.name
  | Statement.fact head => [head.name]
  | Statement.metadata n _ _ => [n]

/-- The user-supplied predicate names of a composite module: its constructor
string parameters. -/
def RNN.userNames (m : RNN) : List String :=
  [m.output_name, m.input_name, m.hidden_0_name, m.next_name]

/-- The compiler-generated (intermediate) names of a composite expansion:
every predicate name occurring in the produced statements that is not one of
the user-supplied constructor names. -/
def RNN.generatedNames (m : RNN) : List String :=
  (((RNN.call m).map Statement.predNames).flatten).filter
    (fun n => decide (n ∉ m.userNames))

/-- Every statement of a list is safe. -/
def allSafe (l : List Statement) : Prop := ∀ s ∈ l, s.safe

/-- Helper: every statement produced by a leaf-cell expansion is safe: the
head variables `X0..X{arity-1}` all occur in the hidden-state body atom, and
`Y` occurs in the successor body atom. -/
lemma cell_call_safe (m : RNNCell) : allSafe (RNNCell.call m) := by
  intro s hs
  simp only [RNNCell.call, List.mem_cons, List.not_mem_nil, or_false] at hs
  rcases hs with rfl | rfl
  · intro v hv
    simp only [Atom.varNames, List.filterMap_append, List.mem_append, posVars,
      List.filterMap_map, Function.comp, List.filterMap_cons, List.filterMap_nil,
      List.mem_cons, List.not_mem_nil, or_false] at hv
    simp only [bodyVarNames, List.map_cons, List.map_nil, List.flatten, Atom.varNames,
      List.filterMap_append, List.filterMap_map, List.mem_append, posVars, Function.comp,
      List.filterMap_cons, List.filterMap_nil, List.mem_cons, List.not_mem_nil, or_false]
    rcases hv with h | h
    · exact Or.inr (Or.inl (Or.inl h))
    · exact Or.inr (Or.inr (Or.inr h))
  · trivial

/-- Helper: every generated name of a composite expansion is the single
intermediate name `output_name ++ "__rnn_cell"`. -/
lemma generatedNames_eq_temp (m : RNN) (n : String) (h : n ∈ RNN.generatedNames m) :
    n = m.tempOutputName := by
  simp only [RNN.generatedNames, List.mem_filter, List.mem_flatten, List.mem_map,
    decide_eq_true_eq] at h
  obtain ⟨⟨l, ⟨s, hs, rfl⟩, hn⟩, hfilt⟩ := h
  simp only [RNN.userNames, List.mem_cons, List.not_mem_nil, or_false, not_or] at hfilt
  obtain ⟨hno, hni, hnh, hnn⟩ := hfilt
  simp only [RNN.call, RNNCell.call, RNN.recursiveCell, List.mem_append, List.mem_map,
    List.mem_cons, List.not_mem_nil, or_false, List.mem_range, or_assoc] at hs
  rcases hs with ⟨i, _, rfl⟩ | rfl | rfl | rfl | rfl | rfl <;>
    simp only [Statement.predNames, List.mem_cons, List.map_cons, List.map_nil,
      List.not_mem_nil, or_false] at hn <;>
    tauto

/-- Helper: appending the same suffix to two different strings yields two
different strings. -/
lemma string_append_right_cancel (a b s : String) (h : a ++ s = b ++ s) : a = b := by
  have hd : a.data ++ s.data = b.data ++ s.data := by
    have := congrArg String.data h
    simpa [String.data_append] using this
  have h2 : a.data = b.data := List.append_cancel_right hd
  cases a; cases b; exact congrArg String.mk h2

/-- C1 counterexample: the claim says the composite expansion of any RNN with
`numLayers = 1` has `1 + 4 = 5` statements; the expansion of
`RNN(4, 8, num_layers=1, "out", "a", "h0")` actually has 6 statements (the
claim misses the final output-relation metadata directive
`output_relation / arity | [Activation.IDENTITY]`). -/
theorem c1_length_counterexample :
    (RNN.call (RNN.mkDefault 4 8 1 "out" "a" "h0")).length ≠ 1 + 4 := by decide

/-- C1 (amended): for every `num_layers >= 1`, the composite expansion consists
of exactly `num_layers` successor Facts, 3 Rules (2 boundary rules plus the 1
delegated cell rule) and 2 MetadataDirectives (the delegated cell directive
plus the output-relation directive), so the total statement count is
`num_layers + 5`, independent of `input_size` and `hidden_size`. -/
theorem c1_statement_counts (m : RNN) (_h : 1 ≤ m.num_layers) :
    (RNN.call m).countP Statement.isFact = m.num_layers ∧
    (RNN.call m).countP Statement.isRule = 3 ∧
    (RNN.call m).countP Statement.isMetadata = 2 ∧
    (RNN.call m).length = m.num_layers + 5 := by
  have hf : (Statement.isFact ∘ fun i : Nat =>
      Statement.fact ⟨m.next_name, [Term.const i, Term.const (i + 1)], none⟩) =
      fun _ => true := rfl
  have hr : (Statement.isRule ∘ fun i : Nat =>
      Statement.fact ⟨m.next_name, [Term.const i, Term.const (i + 1)], none⟩) =
      fun _ => false := rfl
  have hm : (Statement.isMetadata ∘ fun i : Nat =>
      Statement.fact ⟨m.next_name, [Term.const i, Term.const (i + 1)], none⟩) =
      fun _ => false := rfl
  refine ⟨?_, ?_, ?_, ?_⟩ <;>
  simp [RNN.call, RNNCell.call, RNN.recursiveCell, Statement.isFact, Statement.isRule,
    Statement.isMetadata, List.countP_append, List.countP_map, List.countP_cons, hf, hr, hm,
    List.countP_true, List.countP_false]

/-- C1 witness: the amended count theorem instantiated at
`RNN(4, 8, num_layers=1, "out", "a", "h0")`. -/
theorem c1_statement_counts_witness :
    1 ≤ (RNN.mkDefault 4 8 1 "out" "a" "h0").num_layers ∧
    ((RNN.call (RNN.mkDefault 4 8 1 "out" "a" "h0")).countP Statement.isFact =
        (RNN.mkDefault 4 8 1 "out" "a" "h0").num_layers ∧
      (RNN.call (RNN.mkDefault 4 8 1 "out" "a" "h0")).countP Statement.isRule = 3 ∧
      (RNN.call (RNN.mkDefault 4 8 1 "out" "a" "h0")).countP Statement.isMetadata = 2 ∧
      (RNN.call (RNN.mkDefault 4 8 1 "out" "a" "h0")).length =
        (RNN.mkDefault 4 8 1 "out" "a" "h0").num_layers + 5) :=
  ⟨by decide, c1_statement_counts (RNN.mkDefault 4 8 1 "out" "a" "h0") (by decide)⟩

/-- C2 counterexample: the claim says expanding with `num_layers = 0` fails
with an `InvalidConfiguration` error rather than returning a statement
sequence; the code performs no validation and `RNN(4, 8, num_layers=0, "out",
"a", "h0")` expands to this well-defined 5-statement sequence. -/
theorem c2_zero_layers_counterexample :
    RNN.call (RNN.mkDefault 4 8 0 "out" "a" "h0") =
      [ Statement.rule ⟨"out__rnn_cell", [Term.var "X0", Term.const 0], none⟩
          [⟨"h0", [Term.var "X0"], none⟩] Activation.IDENTITY,
        Statement.rule ⟨"out__rnn_cell", [Term.var "X0", Term.var "Y"], none⟩
          [ ⟨"a", [Term.var "X0", Term.var "Y"], some (8, 4)⟩,
            ⟨"out__rnn_cell", [Term.var "X0", Term.var "Z"], some (8, 8)⟩,
            ⟨"_next__positive", [Term.var "Z", Term.var "Y"], none⟩ ] Activation.IDENTITY,
        Statement.metadata "out__rnn_cell" 2 Activation.TANH,
        Statement.rule ⟨"out", [Term.var "X0"], none⟩
          [⟨"out__rnn_cell", [Term.var "X0", Term.const 0], none⟩] Activation.IDENTITY,
        Statement.metadata "out" 1 Activation.IDENTITY ] := by decide

/-- C2 (amended): the constructor and expansion perform no `num_layers`
validation; with `num_layers = 0` the expansion succeeds and returns a
5-statement sequence with zero successor facts, in which both boundary rules
reference the intermediate relation at time `0`. -/
theorem c2_zero_layers_expansion (m : RNN) (h : m.num_layers = 0) :
    RNN.call m =
      [ Statement.rule ⟨m.tempOutputName, posVars m.arity ++ [Term.const 0], none⟩
          [⟨m.hidden_0_name, posVars m.arity, none⟩] Activation.IDENTITY,
        Statement.rule ⟨m.tempOutputName, posVars m.arity ++ [Term.var "Y"], none⟩
          [ ⟨m.input_name,
              (if m.input_time_step then posVars m.arity ++ [Term.var "Y"]
               else posVars m.arity),
              some (m.hidden_size, m.input_size)⟩,
            ⟨m.tempOutputName, posVars m.arity ++ [Term.var "Z"],
              some (m.hidden_size, m.hidden_size)⟩,
            ⟨m.next_name, [Term.var "Z", Term.var "Y"], none⟩ ] Activation.IDENTITY,
        Statement.metadata m.tempOutputName (m.arity + 1) m.activation,
        Statement.rule ⟨m.output_name, posVars m.arity, none⟩
          [⟨m.tempOutputName, posVars m.arity ++ [Term.const 0], none⟩] Activation.IDENTITY,
        Statement.metadata m.output_name m.arity Activation.IDENTITY ] := by
  simp [RNN.call, RNNCell.call, RNN.recursiveCell, h]

/-- C2 witness: the amended zero-layer theorem instantiated at
`RNN(4, 8, num_layers=0, "out", "a", "h0")`. -/
theorem c2_zero_layers_expansion_witness :
    (RNN.mkDefault 4 8 0 "out" "a" "h0").num_layers = 0 ∧
    RNN.call (RNN.mkDefault 4 8 0 "out" "a" "h0") =
      [ Statement.rule
          ⟨(RNN.mkDefault 4 8 0 "out" "a" "h0").tempOutputName,
            posVars (RNN.mkDefault 4 8 0 "out" "a" "h0").arity ++ [Term.const 0], none⟩
          [⟨(RNN.mkDefault 4 8 0 "out" "a" "h0").hidden_0_name,
            posVars (RNN.mkDefault 4 8 0 "out" "a" "h0").arity, none⟩] Activation.IDENTITY,
        Statement.rule
          ⟨(RNN.mkDefault 4 8 0 "out" "a" "h0").tempOutputName,
            posVars (RNN.mkDefault 4 8 0 "out" "a" "h0").arity ++ [Term.var "Y"], none⟩
          [ ⟨(RNN.mkDefault 4 8 0 "out" "a" "h0").input_name,
              (if (RNN.mkDefault 4 8 0 "out" "a" "h0").input_time_step then
                posVars (RNN.mkDefault 4 8 0 "out" "a" "h0").arity ++ [Term.var "Y"]
               else posVars (RNN.mkDefault 4 8 0 "out" "a" "h0").arity),
              some ((RNN.mkDefault 4 8 0 "out" "a" "h0").hidden_size,
                (RNN.mkDefault 4 8 0 "out" "a" "h0").input_size)⟩,
            ⟨(RNN.mkDefault 4 8 0 "out" "a" "h0").tempOutputName,
              posVars (RNN.mkDefault 4 8 0 "out" "a" "h0").arity ++ [Term.var "Z"],
              some ((RNN.mkDefault 4 8 0 "out" "a" "h0").hidden_size,
                (RNN.mkDefault 4 8 0 "out" "a" "h0").hidden_size)⟩,
            ⟨(RNN.mkDefault 4 8 0 "out" "a" "h0").next_name,
              [Term.var "Z", Term.var "Y"], none⟩ ] Activation.IDENTITY,
        Statement.metadata (RNN.mkDefault 4 8 0 "out" "a" "h0").tempOutputName
          ((RNN.mkDefault 4 8 0 "out" "a" "h0").arity + 1)
          (RNN.mkDefault 4 8 0 "out" "a" "h0").activation,
        Statement.rule
          ⟨(RNN.mkDefault 4 8 0 "out" "a" "h0").output_name,
            posVars (RNN.mkDefault 4 8 0 "out" "a" "h0").arity, none⟩
          [⟨(RNN.mkDefault 4 8 0 "out" "a" "h0").tempOutputName,
            posVars (RNN.mkDefault 4 8 0 "out" "a" "h0").arity ++ [Term.const 0], none⟩]
          Activation.IDENTITY,
        Statement.metadata (RNN.mkDefault 4 8 0 "out" "a" "h0").output_name
          (RNN.mkDefault 4 8 0 "out" "a" "h0").arity Activation.IDENTITY ] :=
  ⟨rfl, c2_zero_layers_expansion (RNN.mkDefault 4 8 0 "out" "a" "h0") rfl⟩

/-- C3: `RNNCell(input_size=4, hidden_size=8, output_name="h", input_name="a",
hidden_input_name="h", arity=1)` with all other parameters at their defaults
expands to a Rule with head `h(X0, Y)` and body `a(X0, Y)` weighted `(8, 4)`,
`h(X0, Z)` weighted `(8, 8)`, and the unweighted successor atom — the
successor relation being the default `next_name` predicate `_next__positive` —
applied to `(Z, Y)`, plus a MetadataDirective binding `h/2` to the configured
(default `TANH`) activation. -/
theorem c3_cell_concrete :
    RNNCell.call (RNNCell.mkDefault 4 8 "h" "a" "h") =
      [ Statement.rule
          ⟨"h", [Term.var "X0", Term.var "Y"], none⟩
          [ ⟨"a", [Term.var "X0", Term.var "Y"], some (8, 4)⟩,
            ⟨"h", [Term.var "X0", Term.var "Z"], some (8, 8)⟩,
            ⟨"_next__positive", [Term.var "Z", Term.var "Y"], none⟩ ]
          Activation.IDENTITY,
        Statement.metadata "h" 2 Activation.TANH ] := by decide

/-- C4: `RNN(input_size=4, hidden_size=8, num_layers=3, output_name="out",
input_name="a", hidden_0_name="h0", arity=1)` expands to exactly the 3
successor facts `successor(0,1)`, `successor(1,2)`, `successor(2,3)` (over the
default successor relation `_next__positive`), the boundary rule
`out__rnn_cell(X0, 0) <= h0(X0)`, the delegated cell rule and metadata over
the intermediate relation `out__rnn_cell`, the boundary rule
`out(X0) <= out__rnn_cell(X0, 3)`, and the output metadata directive. -/
theorem c4_rnn_concrete :
    RNN.call (RNN.mkDefault 4 8 3 "out" "a" "h0") =
      [ Statement.fact ⟨"_next__positive", [Term.const 0, Term.const 1], none⟩,
        Statement.fact ⟨"_next__positive", [Term.const 1, Term.const 2], none⟩,
        Statement.fact ⟨"_next__positive", [Term.const 2, Term.const 3], none⟩,
        Statement.rule ⟨"out__rnn_cell", [Term.var "X0", Term.const 0], none⟩
          [⟨"h0", [Term.var "X0"], none⟩] Activation.IDENTITY,
        Statement.rule ⟨"out__rnn_cell", [Term.var "X0", Term.var "Y"], none⟩
          [ ⟨"a", [Term.var "X0", Term.var "Y"], some (8, 4)⟩,
            ⟨"out__rnn_cell", [Term.var "X0", Term.var "Z"], some (8, 8)⟩,
            ⟨"_next__positive", [Term.var "Z", Term.var "Y"], none⟩ ] Activation.IDENTITY,
        Statement.metadata "out__rnn_cell" 2 Activation.TANH,
        Statement.rule ⟨"out", [Term.var "X0"], none⟩
          [⟨"out__rnn_cell", [Term.var "X0", Term.const 3], none⟩] Activation.IDENTITY,
        Statement.metadata "out" 1 Activation.IDENTITY ] := by decide

/-- C5: for every parameter combination `(input_size, hidden_size, arity)` (and
any names, activation and flags), the leaf-cell expansion produces exactly one
Rule followed by exactly one MetadataDirective, and every produced statement is
safe: each variable of the rule head occurs in some body atom. -/
theorem c5_cell_pair_safe (m : RNNCell) :
    (RNNCell.call m).length = 2 ∧
    (RNNCell.call m).map Statement.isRule = [true, false] ∧
    (RNNCell.call m).map Statement.isMetadata = [false, true] ∧
    allSafe (RNNCell.call m) := by
  refine ⟨rfl, rfl, rfl, cell_call_safe m⟩

/-- C6: for every leaf-cell parametrization, the produced rule's body is (a)
the input-feature atom over the position variables (plus the time variable `Y`
exactly when `input_time_step` is set), weighted `(hidden_size, input_size)`;
(b) the hidden-state atom over the position variables plus the fresh
previous-time variable `Z`, weighted `(hidden_size, hidden_size)`; and (c) the
unweighted successor atom linking `Z` to the head time variable `Y`; the rule
itself carries identity activation and the metadata directive binds the output
relation at `arity + 1` to the requested activation. -/
theorem c6_cell_structure (m : RNNCell) :
    RNNCell.call m =
      [ Statement.rule
          ⟨m.output_name, posVars m.arity ++ [Term.var "Y"], none⟩
          [ ⟨m.input_name,
              (if m.input_time_step then posVars m.arity ++ [Term.var "Y"]
               else posVars m.arity),
              some (m.hidden_size, m.input_size)⟩,
            ⟨m.hidden_input_name, posVars m.arity ++ [Term.var "Z"],
              some (m.hidden_size, m.hidden_size)⟩,
            ⟨m.next_name, [Term.var "Z", Term.var "Y"], none⟩ ]
          Activation.IDENTITY,
        Statement.metadata m.output_name (m.arity + 1) m.activation ] := rfl

/-- C7: expansion is deterministic: modules (leaf or composite) constructed
with identical parameters expand to structurally equal statement sequences,
with identical compiler-generated intermediate names.  The embedded expansion
functions are pure functions of the constructor parameters, with no hidden
state or randomness. -/
theorem c7_deterministic (c₁ c₂ : RNNCell) (m₁ m₂ : RNN)
    (hc : c₁ = c₂) (hm : m₁ = m₂) :
    RNNCell.call c₁ = RNNCell.call c₂ ∧
    RNN.call m₁ = RNN.call m₂ ∧
    m₁.tempOutputName = m₂.tempOutputName :=
  ⟨congrArg RNNCell.call hc, congrArg RNN.call hm, congrArg RNN.tempOutputName hm⟩

/-- C7 witness: determinism instantiated at two identically constructed
concrete modules. -/
theorem c7_deterministic_witness :
    RNNCell.call (RNNCell.mkDefault 4 8 "h" "a" "h") =
      RNNCell.call (RNNCell.mkDefault 4 8 "h" "a" "h") ∧
    RNN.call (RNN.mkDefault 4 8 3 "out" "a" "h0") =
      RNN.call (RNN.mkDefault 4 8 3 "out" "a" "h0") ∧
    (RNN.mkDefault 4 8 3 "out" "a" "h0").tempOutputName =
      (RNN.mkDefault 4 8 3 "out" "a" "h0").tempOutputName :=
  c7_deterministic (RNNCell.mkDefault 4 8 "h" "a" "h") (RNNCell.mkDefault 4 8 "h" "a" "h")
    (RNN.mkDefault 4 8 3 "out" "a" "h0") (RNN.mkDefault 4 8 3 "out" "a" "h0") rfl rfl

/-- C8: intermediate names are derived deterministically as
`output_name ++ "__rnn_cell"`, and two composite modules with different
`output_name` parameters generate disjoint sets of intermediate
(compiler-generated, i.e. not user-supplied) predicate names in their
expansions. -/
theorem c8_intermediate_names_disjoint (m₁ m₂ : RNN)
    (h : m₁.output_name ≠ m₂.output_name) :
    m₁.tempOutputName = m₁.output_name ++ "__rnn_cell" ∧
    List.Disjoint (RNN.generatedNames m₁) (RNN.generatedNames m₂) := by
  refine ⟨rfl, fun n hn₁ hn₂ => ?_⟩
  have e₁ := generatedNames_eq_temp m₁ n hn₁
  have e₂ := generatedNames_eq_temp m₂ n hn₂
  exact h (string_append_right_cancel _ _ _ ((e₁.symm.trans e₂ : m₁.tempOutputName = _)))

/-- C8 witness: name disjointness instantiated at two concrete composites with
output names `"out"` and `"res"`. -/
theorem c8_intermediate_names_disjoint_witness :
    (RNN.mkDefault 4 8 3 "out" "a" "h0").tempOutputName =
      (RNN.mkDefault 4 8 3 "out" "a" "h0").output_name ++ "__rnn_cell" ∧
    List.Disjoint (RNN.generatedNames (RNN.mkDefault 4 8 3 "out" "a" "h0"))
      (RNN.generatedNames (RNN.mkDefault 2 5 2 "res" "b" "g0")) :=
  c8_intermediate_names_disjoint (RNN.mkDefault 4 8 3 "out" "a" "h0")
    (RNN.mkDefault 2 5 2 "res" "b" "g0") (by decide)

/-- C9: for every composite parametrization, the metadata directives of the
expansion are exactly the delegated cell directive binding the intermediate
relation `output_name ++ "__rnn_cell"` at `arity + 1` to the configured
activation, followed by the directive binding the externally visible output
relation at `arity` to identity activation — the `activation` parameter never
reaches the output relation's directive. -/
theorem c9_activation_placement (m : RNN) :
    (RNN.call m).filter Statement.isMetadata =
      [ Statement.metadata (m.output_name ++ "__rnn_cell") (m.arity + 1) m.activation,
        Statement.metadata m.output_name m.arity Activation.IDENTITY ] := by
  have hf : (Statement.isMetadata ∘ fun i : Nat =>
      Statement.fact ⟨m.next_name, [Term.const i, Term.const (i + 1)], none⟩) =
      fun _ => false := rfl
  simp [RNN.call, RNNCell.call, RNN.recursiveCell, RNN.tempOutputName, List.filter_append,
    List.filter_map, hf, Statement.isMetadata, List.filter_cons]

/-- C10: for every arity, when the leaf cell is constructed with
`input_time_step = false` the input-feature atom ranges over the position
variables only (no time variable), yet the produced statements are all safe:
the head time variable `Y` is bound by the successor atom and the position
variables by the hidden-state atom. -/
theorem c10_no_time_step_safe (m : RNNCell) (h : m.input_time_step = false) :
    RNNCell.call m =
      [ Statement.rule
          ⟨m.output_name, posVars m.arity ++ [Term.var "Y"], none⟩
          [ ⟨m.input_name, posVars m.arity, some (m.hidden_size, m.input_size)⟩,
            ⟨m.hidden_input_name, posVars m.arity ++ [Term.var "Z"],
              some (m.hidden_size, m.hidden_size)⟩,
            ⟨m.next_name, [Term.var "Z", Term.var "Y"], none⟩ ]
          Activation.IDENTITY,
        Statement.metadata m.output_name (m.arity + 1) m.activation ] ∧
    allSafe (RNNCell.call m) := by
  refine ⟨?_, cell_call_safe m⟩
  simp [RNNCell.call, h]

/-- C10 witness: the time-step-free cell theorem instantiated at a concrete
cell with `input_time_step = false` and arity 2. -/
theorem c10_no_time_step_safe_witness :
    RNNCell.call ⟨4, 8, "h", "a", "h", Activation.TANH, 2, false, "_next__positive"⟩ =
      [ Statement.rule
          ⟨"h", posVars 2 ++ [Term.var "Y"], none⟩
          [ ⟨"a", posVars 2, some (8, 4)⟩,
            ⟨"h", posVars 2 ++ [Term.var "Z"], some (8, 8)⟩,
            ⟨"_next__positive", [Term.var "Z", Term.var "Y"], none⟩ ]
          Activation.IDENTITY,
        Statement.metadata "h" 3 Activation.TANH ] ∧
    allSafe (RNNCell.call ⟨4, 8, "h", "a", "h", Activation.TANH, 2, false, "_next__positive"⟩) :=
  c10_no_time_step_safe ⟨4, 8, "h", "a", "h", Activation.TANH, 2, false, "_next__positive"⟩ rfl
